import Mathlib

set_option autoImplicit false

/-!
Shallow embedding of the floodnet_client library: schemas.py, client.py and
spatial.py under src/floodnet_client. Python datetime instants and timedelta
values are modelled as integer microsecond counts; float payload values are
modelled as rationals, since no statement below depends on floating point
rounding. The HTTP transport, the pydantic validation layer and the shapely
and geopandas geometry operations are external collaborators of the library,
so they enter the model as explicit parameters or abstract data.
-/

namespace FloodNet

/-- Python datetime instants, as microseconds since the epoch. -/
abbrev Time := Int

/-- schemas.CRSProperties. -/
structure CRSProperties where
  name : String
deriving DecidableEq

/-- schemas.CRS. -/
structure CRS where
  type : String
  properties : CRSProperties
deriving DecidableEq

/-- schemas.Location. The coordinates field is a float list constrained by the
schema to exactly two elements (min_length 2, max_length 2); it is embedded as
a pair. -/
structure Location where
  type : String
  crs : CRS
  coordinates : ℚ × ℚ
deriving DecidableEq

/-- schemas.Deployment, a pydantic model. The longitude and latitude fields
are absent at parse time and populated by get_deployments as a post
processing step. -/
structure Deployment where
  deployment_id : String
  name : String
  date_deployed : Time
  date_down : Option Time
  deploy_type : String
  location : Location
  image : Option String := none
  sensor_mount : Option String := none
  mounted_over : Option String := none
  sensor_status : String
  longitude : Option ℚ := none
  latitude : Option ℚ := none
deriving DecidableEq

/-- schemas.DepthReading. -/
structure DepthReading where
  deployment_id : String
  time : Time
  depth_proc_mm : ℚ
deriving DecidableEq

/-- client.CACHE_EXPIRY = timedelta(days 1), in microseconds. -/
def CACHE_EXPIRY : Int := 86400000000

/-- The mutable state of a FloodNetClient instance: the single slot
deployments cache, an optional pair of fetch time and deployment list. -/
structure ClientState where
  deployments_cache : Option (Time × List Deployment)
deriving DecidableEq

/-- Outcome of the bulk upstream request GET deployments/flood as seen by the
client: either an exception is raised (transport failure, non 2xx status, or a
payload that does not validate as DeploymentResponse), or a validated
deployment list is produced. -/
inductive DeploymentFetchOutcome where
  | failure
  | success (deployments : List Deployment)

/-- The error surfaced by get_deployments when the upstream fetch fails. -/
inductive FetchError where
  | requestFailed
deriving DecidableEq

/-- Coordinate post processing inside get_deployments:
deployment.longitude = location.coordinates[0] and
deployment.latitude = location.coordinates[1]. -/
def processDeploymentCoords (d : Deployment) : Deployment :=
  { d with longitude := some d.location.coordinates.1,
           latitude := some d.location.coordinates.2 }

/-- The fetch branch of FloodNetClient.get_deployments: perform the upstream
request (one network access), on failure re-raise leaving the cache untouched,
on success post process the coordinates of every record, store the processed
list in the cache with the current time and return it. The third component of
the result counts network accesses made by the call. -/
def fetchAndCache (upstream : DeploymentFetchOutcome) (now : Time) (s : ClientState) :
    Except FetchError (List Deployment) × ClientState × Nat :=
  match upstream with
  | .failure => (.error .requestFailed, s, 1)
  | .success deps =>
      let processed := deps.map processDeploymentCoords
      (.ok processed, ⟨some (now, processed)⟩, 1)

/-- FloodNetClient.get_deployments. With force_refresh false and a cache entry
strictly younger than CACHE_EXPIRY, the cached list is returned with no
network access; otherwise the fetch branch runs. -/
def get_deployments (upstream : DeploymentFetchOutcome) (now : Time) (s : ClientState)
    (force_refresh : Bool) : Except FetchError (List Deployment) × ClientState × Nat :=
  match force_refresh, s.deployments_cache with
  | false, some (cache_time, deployments) =>
      if now - cache_time < CACHE_EXPIRY then (.ok deployments, s, 0)
      else fetchAndCache upstream now s
  | false, none => fetchAndCache upstream now s
  | true, _ => fetchAndCache upstream now s

/-- FloodNetClient.refresh_deployments_cache: clears the cache slot. -/
def refresh_deployments_cache (_ : ClientState) : ClientState := ⟨none⟩

/-- Python TypeError. -/
inductive PyError where
  | typeError (msg : String)
deriving DecidableEq

/-- The subscript expression on a Deployment record: pydantic BaseModel
instances do not implement item access, so subscripting a Deployment raises
TypeError for every key. -/
def Deployment.getItem (_ : Deployment) (_ : String) : Except PyError String :=
  .error (.typeError "Deployment object is not subscriptable")

/-- Errors observable from FloodNetClient.get_deployment_ids. -/
inductive ClientError where
  | fetchFailure
  | pyError (e : PyError)
deriving DecidableEq

/-- The list comprehension in FloodNetClient.get_deployment_ids, which
evaluates the subscript on each element in order and raises at the first
failure. -/
def deploymentIdsComprehension (deployments : List Deployment) :
    Except PyError (List String) :=
  deployments.mapM (fun d => d.getItem "deployment_id")

/-- FloodNetClient.get_deployment_ids: fetch deployments (through the cache),
then build the identifier list by subscripting each record. -/
def get_deployment_ids (upstream : DeploymentFetchOutcome) (now : Time) (s : ClientState) :
    Except ClientError (List String) × ClientState × Nat :=
  match get_deployments upstream now s false with
  | (.error _, s1, n) => (.error .fetchFailure, s1, n)
  | (.ok deps, s1, n) =>
      match deploymentIdsComprehension deps with
      | .error e => (.error (.pyError e), s1, n)
      | .ok ids => (.ok ids, s1, n)

/-- The maximum window of client.get_depth_data: timedelta(days 7), in
microseconds. -/
def maxDuration : Int := 604800000000

/-- Outcome of the per deployment request GET deployments/flood/id/depth as
seen by the client: the request raises (transport failure or non 2xx status,
which is how an unknown identifier may surface), response.json() raises
ValueError, or a parsed JSON object whose depth_data member is a list of raw
records of type γ (an unknown identifier may also surface as an empty list).
The per record validation layer is an external collaborator mapping a raw
record to a typed DepthReading or failing. -/
inductive DepthOutcome (γ : Type) where
  | transportError
  | invalidJson
  | payload (depth_data : List γ)

/-- One iteration of the loop in FloodNetClient.get_depth_data: issue the
request for dep_id (counted as one network access); on a request error or a
JSON parse error log and continue, leaving the accumulator unchanged;
otherwise validate each raw record of the payload, drop the failing ones, and
extend the accumulator with the validated readings. -/
def depthStep {γ : Type} (validateRecord : γ → Option DepthReading)
    (upstream : String → DepthOutcome γ)
    (acc : List DepthReading × Nat) (dep_id : String) : List DepthReading × Nat :=
  match upstream dep_id with
  | .transportError => (acc.1, acc.2 + 1)
  | .invalidJson => (acc.1, acc.2 + 1)
  | .payload raws => (acc.1 ++ raws.filterMap validateRecord, acc.2 + 1)

/-- FloodNetClient.get_depth_data with an explicit deployment_ids list: check
the time range preconditions before any network access, then run the per
identifier loop from an empty accumulator. The second component counts
network accesses. When deployment_ids is None the Python code first resolves
all identifiers through get_deployments; the claims below concern explicit
identifier lists. -/
def get_depth_data {γ : Type} (validateRecord : γ → Option DepthReading)
    (upstream : String → DepthOutcome γ)
    (start_time end_time : Time) (deployment_ids : List String) :
    Except String (List DepthReading) × Nat :=
  if start_time ≥ end_time then (.error "start_time must be before end_time", 0)
  else if end_time - start_time > maxDuration then
    (.error "Time range cannot exceed 7 days, 0:00:00", 0)
  else
    let out := deployment_ids.foldl (depthStep validateRecord upstream) ([], 0)
    (.ok out.1, out.2)

/-- The per identifier contribution of the loop: the valid_readings list
computed inside one iteration (empty when the request or the JSON parse for
that identifier fails, the validated records of the payload otherwise). -/
def idContribution {γ : Type} (validateRecord : γ → Option DepthReading)
    (upstream : String → DepthOutcome γ) (dep_id : String) : List DepthReading :=
  match upstream dep_id with
  | .transportError => []
  | .invalidJson => []
  | .payload raws => raws.filterMap validateRecord

/-- A shapely geometry (Polygon or MultiPolygon), embedded through its
membership behaviour: interior p is the strict containment test used by the
within predicate (true iff p lies strictly inside), onBoundary p is true iff
p lies exactly on the boundary edge; is_valid and is_simple are the shapely
predicates consulted by the validator. -/
structure Geom where
  interior : ℚ × ℚ → Bool
  onBoundary : ℚ × ℚ → Bool
  is_valid : Bool
  is_simple : Bool

/-- A geopandas GeoSeries: an ordered geometry collection carrying a
coordinate reference system tag. -/
structure GeoSeries where
  crs : String
  geoms : List Geom

/-- union_all of a GeoSeries: membership in the union is membership in some
part. The validator always produces a single element series, on which this
agrees exactly with the sole element. -/
def GeoSeries.union_all (s : GeoSeries) : Geom :=
  { interior := fun p => s.geoms.any fun g => g.interior p,
    onBoundary := fun p => s.geoms.any fun g => g.onBoundary p,
    is_valid := true,
    is_simple := true }

/-- The geometry argument accepted by the spatial client: a bare Polygon or
MultiPolygon, a GeoSeries, or a value of any other type. -/
inductive GeomInput where
  | poly (g : Geom)
  | series (s : GeoSeries)
  | other

/-- The shared tail of SpatialFloodNetClient._validate_geometry, applied to
the series crs and its first element (iloc[0]): run make_valid, check
is_valid and is_simple, wrap the result as a single element series, and
reproject to EPSG:4326 when the crs differs. makeValid and reproject model
shapely make_valid and geopandas to_crs. -/
def validateSeries (makeValid : Geom → Geom) (reproject : String → Geom → Geom)
    (crs : String) (g0 : Geom) : Except String GeoSeries :=
  let valid_geom := makeValid g0
  if !valid_geom.is_valid || !valid_geom.is_simple then
    .error "Could not create valid, simple geometry"
  else if crs ≠ "EPSG:4326" then .ok ⟨"EPSG:4326", [reproject crs valid_geom]⟩
  else .ok ⟨crs, [valid_geom]⟩

/-- SpatialFloodNetClient._validate_geometry. A bare Polygon or MultiPolygon
is wrapped as a single element series with crs EPSG:4326; a GeoSeries must be
non empty, and only its first element reaches validation; any other input
type is rejected. -/
def validate_geometry (makeValid : Geom → Geom) (reproject : String → Geom → Geom) :
    GeomInput → Except String GeoSeries
  | .poly g => validateSeries makeValid reproject "EPSG:4326" g
  | .series s =>
      match s.geoms with
      | [] => .error "GeoSeries must contain at least one geometry"
      | g0 :: _ => validateSeries makeValid reproject s.crs g0
  | .other => .error "geometry must be Polygon, MultiPolygon or GeoSeries"

/-- The Point built for the GeoDataFrame row of a deployment from
d.longitude and d.latitude. Deployments reaching the spatial layer come out
of get_deployments, which always populates both fields; an absent field
defaults to 0 here. -/
def Deployment.point (d : Deployment) : ℚ × ℚ :=
  (d.longitude.getD 0, d.latitude.getD 0)

/-- SpatialFloodNetClient.get_deployments_within_geometry, parametrized by
the deployment list that get_deployments returns: validate the geometry,
filter the GeoDataFrame rows by within against the union of the validated
bounds, collect the matching deployment_id list, and return the deployments
whose identifier occurs in that list. A GeoDataFrame built from an empty
deployment list has no deployment_id column, so on an empty list the column
access after the spatial filter raises AttributeError; a frame built from a
non empty list keeps its columns even when the filter leaves no row. -/
def get_deployments_within_geometry (makeValid : Geom → Geom)
    (reproject : String → Geom → Geom) (deployments : List Deployment)
    (geometry : GeomInput) : Except String (List Deployment) := do
  let bounds ← validate_geometry makeValid reproject geometry
  let u := bounds.union_all
  let filtered := deployments.filter fun d => u.interior d.point
  if deployments.isEmpty then
    .error "AttributeError: deployment_id"
  else
    let deployment_ids := filtered.map fun d => d.deployment_id
    return deployments.filter fun d => deployment_ids.contains d.deployment_id

/-- One row of the GeoDataFrame returned by get_depth_data_within_geometry:
deployment_id, time, depth_mm, and the geometry joined in from the deployment
table (missing when no deployment row matches the key). -/
structure ReadingRow where
  deployment_id : String
  time : Time
  depth_mm : ℚ
  geometry : Option (ℚ × ℚ)
deriving DecidableEq

/-- The pandas merge on deployment_id with the right option: one output row
per reading row, joined with the matching deployment row when one exists
(identifiers are unique in the deployment table, so the first match is the
match). Deployments without a matching reading contribute no row. -/
def rightMergeOnDeploymentId (gdf : List Deployment) (readings : List DepthReading) :
    List ReadingRow :=
  readings.map fun r =>
    { deployment_id := r.deployment_id, time := r.time, depth_mm := r.depth_proc_mm,
      geometry := (gdf.find? fun d => d.deployment_id == r.deployment_id).map
        Deployment.point }

/-- SpatialFloodNetClient.get_depth_data_within_geometry, parametrized by the
deployment list that get_deployments returns: validate the geometry, pass the
validated bounds back through get_deployments_within_geometry (which
re-validates them), fetch depth data for the matching identifiers over the
window, and join the readings onto the deployment locations with a right
merge on deployment_id. When no deployment matched spatially the GeoDataFrame
has no columns and the column selection before the merge raises KeyError;
when the fetched reading list is empty the DataFrame built from it has no
deployment_id column and the merge on that key raises KeyError. -/
def get_depth_data_within_geometry {γ : Type} (makeValid : Geom → Geom)
    (reproject : String → Geom → Geom) (validateRecord : γ → Option DepthReading)
    (upstream : String → DepthOutcome γ) (deployments : List Deployment)
    (start_time end_time : Time) (geometry : GeomInput) :
    Except String (List ReadingRow) := do
  let bounds ← validate_geometry makeValid reproject geometry
  let deps ← get_deployments_within_geometry makeValid reproject deployments
    (.series bounds)
  let deployment_ids := deps.map fun d => d.deployment_id
  let readings ← (get_depth_data validateRecord upstream start_time end_time
    deployment_ids).1
  if deps.isEmpty then
    .error "KeyError: deployment_id and geometry not in index"
  else if readings.isEmpty then
    .error "KeyError: deployment_id"
  else
    return rightMergeOnDeploymentId deps readings

/-! Helper lemmas about the depth loop. -/

/-- One loop iteration appends the per identifier contribution and counts one
network access. -/
theorem depthStep_eq {γ : Type} (validateRecord : γ → Option DepthReading)
    (upstream : String → DepthOutcome γ) (acc : List DepthReading × Nat) (dep_id : String) :
    depthStep validateRecord upstream acc dep_id
      = (acc.1 ++ idContribution validateRecord upstream dep_id, acc.2 + 1) := by
  cases h : upstream dep_id <;> simp [depthStep, idContribution, h]

/-- The whole loop appends the concatenation of the per identifier
contributions, in input order, and counts one network access per
identifier. -/
theorem depthLoop_eq {γ : Type} (validateRecord : γ → Option DepthReading)
    (upstream : String → DepthOutcome γ) (deployment_ids : List String) :
    ∀ acc : List DepthReading × Nat,
      deployment_ids.foldl (depthStep validateRecord upstream) acc
        = (acc.1 ++ ((deployment_ids.map (idContribution validateRecord upstream)).flatten),
           acc.2 + deployment_ids.length) := by
  induction deployment_ids with
  | nil => intro acc; simp
  | cons i rest ih =>
      intro acc
      rw [List.foldl_cons, depthStep_eq, ih]
      simp [List.append_assoc]
      omega

/-- Claim C1: for every identifier list and valid window, a failure scoped to
one identifier never aborts the loop: the call succeeds and returns the
concatenation, in input identifier order, of the per identifier contributions;
a parsable payload contributes exactly its validated records (invalid sibling
records are dropped one by one); an identifier whose request fails, whose
payload is unparsable, or which is unknown (empty payload) contributes the
empty list; the empty identifier list and the all unknown case yield the empty
result, never an error; and changing the upstream behaviour at one identifier
leaves the contribution of every other identifier unchanged. -/
theorem c1_depth_isolation {γ : Type} (validateRecord : γ → Option DepthReading)
    (upstream : String → DepthOutcome γ) (start_time end_time : Time)
    (deployment_ids : List String)
    (h1 : start_time < end_time) (h2 : end_time - start_time ≤ maxDuration) :
    (get_depth_data validateRecord upstream start_time end_time deployment_ids).1
        = .ok ((deployment_ids.map (idContribution validateRecord upstream)).flatten)
    ∧ (∀ dep_id raws, upstream dep_id = .payload raws →
        idContribution validateRecord upstream dep_id = raws.filterMap validateRecord)
    ∧ (∀ dep_id, (upstream dep_id = .transportError ∨ upstream dep_id = .invalidJson ∨
          upstream dep_id = .payload []) →
        idContribution validateRecord upstream dep_id = [])
    ∧ (get_depth_data validateRecord upstream start_time end_time []).1 = .ok []
    ∧ ((∀ i ∈ deployment_ids, upstream i = .payload []) →
        (get_depth_data validateRecord upstream start_time end_time deployment_ids).1
          = .ok [])
    ∧ (∀ (upstream2 : String → DepthOutcome γ) (d : String),
        (∀ i, i ≠ d → upstream2 i = upstream i) →
        ∀ i ∈ deployment_ids, i ≠ d →
          idContribution validateRecord upstream2 i
            = idContribution validateRecord upstream i) := by
  have hrange1 : ¬ (start_time ≥ end_time) := not_le.mpr h1
  have hrange2 : ¬ (end_time - start_time > maxDuration) := not_lt.mpr h2
  refine ⟨?_, ?_, ?_, ?_, ?_, ?_⟩
  · simp [get_depth_data, hrange1, hrange2, depthLoop_eq]
  · intro dep_id raws h
    simp [idContribution, h]
  · intro dep_id h
    rcases h with h | h | h <;> simp [idContribution, h]
  · simp [get_depth_data, hrange1, hrange2]
  · intro hall
    simp only [get_depth_data, hrange1, hrange2, if_false, ge_iff_le, gt_iff_lt,
      if_neg hrange1, if_neg hrange2, depthLoop_eq]
    refine congrArg Except.ok ?_
    rw [List.nil_append, List.flatten_eq_nil_iff]
    intro l hl
    rcases List.mem_map.mp hl with ⟨i, hi, rfl⟩
    simp [idContribution, hall i hi]
  · intro upstream2 d hagree i _ hne
    simp [idContribution, hagree i hne]

/-- Concrete readings for witnesses. -/
def sampleReading1 : DepthReading := ⟨"a", 3, 5⟩

/-- A second concrete reading for witnesses. -/
def sampleReading2 : DepthReading := ⟨"a", 4, 7⟩

/-- A concrete upstream for the depth loop: identifier a returns a payload
with two valid records and one invalid record, b fails at transport, c returns
an unparsable payload, every other identifier is unknown and returns an empty
payload. -/
def sampleDepthUpstream : String → DepthOutcome (Option DepthReading)
  | "a" => .payload [some sampleReading1, none, some sampleReading2]
  | "b" => .transportError
  | "c" => .invalidJson
  | _ => .payload []

/-- Witness for C1 at a concrete input mixing a partly invalid payload, a
transport failure, an unparsable payload and an unknown identifier: the call
returns exactly the two validated readings of identifier a. -/
theorem c1_witness :
    (get_depth_data (fun r : Option DepthReading => r) sampleDepthUpstream 0 10
        ["a", "b", "c", "d"]).1 = .ok [sampleReading1, sampleReading2] := by
  have h := (c1_depth_isolation (fun r : Option DepthReading => r) sampleDepthUpstream
    0 10 ["a", "b", "c", "d"] (by decide) (by decide)).1
  rw [h]
  rfl

/-- Claim C2: with an explicit identifier list the call fails, with no network
access performed, exactly when the time range precondition is violated: equal
or inverted endpoints fail with the range message, a window longer than seven
days fails with the duration message, and otherwise the call returns a
list. -/
theorem c2_depth_preconditions {γ : Type} (validateRecord : γ → Option DepthReading)
    (upstream : String → DepthOutcome γ) (start_time end_time : Time)
    (deployment_ids : List String) :
    ((∃ m, (get_depth_data validateRecord upstream start_time end_time deployment_ids).1
          = .error m)
        ↔ (start_time ≥ end_time ∨ end_time - start_time > maxDuration))
    ∧ (start_time ≥ end_time →
        get_depth_data validateRecord upstream start_time end_time deployment_ids
          = (.error "start_time must be before end_time", 0))
    ∧ (start_time < end_time → end_time - start_time > maxDuration →
        get_depth_data validateRecord upstream start_time end_time deployment_ids
          = (.error "Time range cannot exceed 7 days, 0:00:00", 0)) := by
  by_cases hge : start_time ≥ end_time
  · refine ⟨⟨fun _ => Or.inl hge, fun _ => ⟨"start_time must be before end_time", ?_⟩⟩,
      fun _ => ?_, fun hlt _ => absurd hge (not_le.mpr hlt)⟩ <;>
      simp [get_depth_data, hge]
  · by_cases hdur : end_time - start_time > maxDuration
    · refine ⟨⟨fun _ => Or.inr hdur, fun _ => ⟨"Time range cannot exceed 7 days, 0:00:00", ?_⟩⟩,
        fun h => absurd h hge, fun _ _ => ?_⟩ <;>
        simp [get_depth_data, hge, hdur]
    · refine ⟨⟨fun ⟨m, hm⟩ => ?_, fun h => ?_⟩,
        fun h => absurd h hge, fun _ h => absurd h hdur⟩
      · simp [get_depth_data, hge, hdur] at hm
      · rcases h with h | h
        · exact absurd h hge
        · exact absurd h hdur

/-- Witness for C2 at concrete inputs: equal endpoints fail with the range
message and no network access; an eight day window fails with the duration
message and no network access. -/
theorem c2_witness :
    get_depth_data (fun r : Option DepthReading => r) sampleDepthUpstream 0 0 ["a"]
        = (.error "start_time must be before end_time", 0)
    ∧ get_depth_data (fun r : Option DepthReading => r) sampleDepthUpstream
        0 691200000000 ["a"]
        = (.error "Time range cannot exceed 7 days, 0:00:00", 0) :=
  ⟨(c2_depth_preconditions (fun r : Option DepthReading => r) sampleDepthUpstream
      0 0 ["a"]).2.1 (by decide),
   (c2_depth_preconditions (fun r : Option DepthReading => r) sampleDepthUpstream
      0 691200000000 ["a"]).2.2 (by decide) (by decide)⟩

/-- An upstream whose sole payload record carries a timestamp outside the
requested window. -/
def outOfWindowUpstream : String → DepthOutcome (Option DepthReading) :=
  fun _ => .payload [some ⟨"d1", 999, 0⟩]

/-- Counterexample to claim C6: with the window from 0 to 10 the call returns
a validated reading whose timestamp is 999, outside the window: the client
forwards the window to the upstream service but applies no temporal filter of
its own to the records it receives. -/
theorem c6_counterexample :
    (get_depth_data (fun r : Option DepthReading => r) outOfWindowUpstream 0 10 ["d1"]).1
        = .ok [⟨"d1", 999, 0⟩]
    ∧ ¬ ((999 : Time) ≤ 10) := by
  exact ⟨rfl, by decide⟩

/-- Claim C6 amended: the client performs no temporal filtering of its own;
returned readings lie in the requested window exactly when the upstream
payloads already do: if every validated record of every payload has its
timestamp inside the window, then every reading of a successful call does. -/
theorem c6_amended_window {γ : Type} (validateRecord : γ → Option DepthReading)
    (upstream : String → DepthOutcome γ) (start_time end_time : Time)
    (deployment_ids : List String)
    (hup : ∀ i raws, upstream i = .payload raws →
      ∀ r ∈ raws.filterMap validateRecord, start_time ≤ r.time ∧ r.time ≤ end_time) :
    ∀ l, (get_depth_data validateRecord upstream start_time end_time deployment_ids).1
        = .ok l →
      ∀ r ∈ l, start_time ≤ r.time ∧ r.time ≤ end_time := by
  intro l hl r hr
  by_cases hge : start_time ≥ end_time
  · simp [get_depth_data, hge] at hl
  · by_cases hdur : end_time - start_time > maxDuration
    · simp [get_depth_data, hge, hdur] at hl
    · simp only [get_depth_data, if_neg hge, if_neg hdur, depthLoop_eq,
        List.nil_append, Except.ok.injEq] at hl
      subst hl
      rcases List.mem_flatten.mp hr with ⟨contrib, hc, hrc⟩
      rcases List.mem_map.mp hc with ⟨i, _, rfl⟩
      cases hui : upstream i with
      | transportError => simp [idContribution, hui] at hrc
      | invalidJson => simp [idContribution, hui] at hrc
      | payload raws =>
          rw [idContribution, hui] at hrc
          exact hup i raws hui r hrc

/-- Witness for the amended C6: with an upstream whose only record lies at
timestamp 5 inside the window from 0 to 10, the returned reading lies in the
window. -/
theorem c6_witness :
    (0 : Time) ≤ DepthReading.time ⟨"a", 5, 1⟩ ∧ DepthReading.time ⟨"a", 5, 1⟩ ≤ 10 := by
  refine c6_amended_window (fun r : Option DepthReading => r)
    (fun _ => .payload [some ⟨"a", 5, 1⟩]) 0 10 ["x"] ?_ [⟨"a", 5, 1⟩] rfl ⟨"a", 5, 1⟩
    (by simp)
  intro i raws hraws r hrm
  cases hraws
  simp only [List.filterMap] at hrm
  simp at hrm
  subst hrm
  exact ⟨by decide, by decide⟩

/-- A concrete deployment for witnesses, as parsed (coordinates not yet
derived). -/
def sampleDeployment : Deployment :=
  { deployment_id := "d1", name := "sensor one", date_deployed := 0, date_down := none,
    deploy_type := "flood", location := ⟨"Point", ⟨"link", ⟨"epsg4326"⟩⟩, (1, 2)⟩,
    sensor_status := "good" }

/-- Claim C3: a cache entry strictly younger than the time to live is served
as is, with no network access and no state change; consequently, starting from
an empty cache, a fetch followed by a second fetch within the time to live
returns the identical deployment list with exactly one network access in
total. -/
theorem c3_cache_hit (upstream : DeploymentFetchOutcome) (cache_time : Time)
    (cached : List Deployment) (now : Time)
    (hfresh : now - cache_time < CACHE_EXPIRY) :
    get_deployments upstream now ⟨some (cache_time, cached)⟩ false
        = (.ok cached, ⟨some (cache_time, cached)⟩, 0)
    ∧ ∀ (deps : List Deployment) (now1 now2 : Time), now2 - now1 < CACHE_EXPIRY →
        get_deployments (.success deps) now1 ⟨none⟩ false
            = (.ok (deps.map processDeploymentCoords),
               ⟨some (now1, deps.map processDeploymentCoords)⟩, 1)
          ∧ get_deployments (.success deps) now2
              ⟨some (now1, deps.map processDeploymentCoords)⟩ false
            = (.ok (deps.map processDeploymentCoords),
               ⟨some (now1, deps.map processDeploymentCoords)⟩, 0) := by
  refine ⟨by simp [get_deployments, hfresh], ?_⟩
  intro deps now1 now2 h2
  exact ⟨by simp [get_deployments, fetchAndCache], by simp [get_deployments, h2]⟩

/-- Witness for C3: a concrete cache entry of age five microseconds is served
unchanged, and a fetch from the empty cache followed by a call ten
microseconds later returns the same processed list with one network access
then none. -/
theorem c3_witness :
    get_deployments .failure 5 ⟨some (0, [sampleDeployment])⟩ false
        = (.ok [sampleDeployment], ⟨some (0, [sampleDeployment])⟩, 0)
    ∧ get_deployments (.success [sampleDeployment]) 0 ⟨none⟩ false
        = (.ok [processDeploymentCoords sampleDeployment],
           ⟨some (0, [processDeploymentCoords sampleDeployment])⟩, 1)
    ∧ get_deployments (.success [sampleDeployment]) 10
        ⟨some (0, [processDeploymentCoords sampleDeployment])⟩ false
        = (.ok [processDeploymentCoords sampleDeployment],
           ⟨some (0, [processDeploymentCoords sampleDeployment])⟩, 0) := by
  have h := c3_cache_hit .failure 0 [sampleDeployment] 5 (by decide)
  have h2 := h.2 [sampleDeployment] 0 10 (by decide)
  exact ⟨h.1, h2.1, h2.2⟩

/-- Claim C4: with a failing upstream, get_deployments never changes the
client state: the previously stored cache entry is left exactly as it was;
and whenever the call actually performs a network access (the fetch path,
taken on a forced refresh, an empty cache or an expired entry), it fails. -/
theorem c4_failed_fetch_preserves_cache (s : ClientState) (now : Time)
    (force_refresh : Bool) :
    (get_deployments .failure now s force_refresh).2.1 = s
    ∧ ((get_deployments .failure now s force_refresh).2.2 ≠ 0 →
        (get_deployments .failure now s force_refresh).1 = .error .requestFailed) := by
  obtain ⟨c⟩ := s
  cases c with
  | none => cases force_refresh <;> simp [get_deployments, fetchAndCache]
  | some p =>
      obtain ⟨cache_time, cached⟩ := p
      cases force_refresh with
      | true => simp [get_deployments, fetchAndCache]
      | false =>
          by_cases hfresh : now - cache_time < CACHE_EXPIRY <;>
            simp [get_deployments, fetchAndCache, hfresh]

/-- Witness for C4: a forced refresh against a failing upstream fails the call
and leaves the concrete cache entry exactly as it was. -/
theorem c4_witness :
    (get_deployments .failure 0 ⟨some (0, [sampleDeployment])⟩ true).1
        = .error .requestFailed
    ∧ (get_deployments .failure 0 ⟨some (0, [sampleDeployment])⟩ true).2.1
        = ⟨some (0, [sampleDeployment])⟩ := by
  have h := c4_failed_fetch_preserves_cache ⟨some (0, [sampleDeployment])⟩ 0 true
  exact ⟨h.2 (by decide), h.1⟩

/-- Claim C10: whenever the deployment fetch step inside get_deployment_ids
yields a non empty deployment list, the subscript on the first record raises
TypeError, because pydantic models do not support item access; the call
therefore errors instead of returning the identifier list, for every such
client state. -/
theorem c10_deployment_ids_raises (upstream : DeploymentFetchOutcome) (now : Time)
    (s : ClientState) (deps : List Deployment) (s1 : ClientState) (n : Nat)
    (hfetch : get_deployments upstream now s false = (.ok deps, s1, n))
    (hne : deps ≠ []) :
    (get_deployment_ids upstream now s).1
      = .error (.pyError (.typeError "Deployment object is not subscriptable")) := by
  unfold get_deployment_ids
  rw [hfetch]
  cases deps with
  | nil => exact absurd rfl hne
  | cons d rest => rfl

/-- Witness for C10: with a fresh concrete cache entry holding one deployment,
get_deployment_ids errors with the TypeError rather than returning the
identifier list. -/
theorem c10_witness :
    (get_deployment_ids .failure 0 ⟨some (0, [sampleDeployment])⟩).1
      = .error (.pyError (.typeError "Deployment object is not subscriptable")) :=
  c10_deployment_ids_raises .failure 0 ⟨some (0, [sampleDeployment])⟩
    [sampleDeployment] ⟨some (0, [sampleDeployment])⟩ 0 (by rfl)
    (by simp)

/-- Membership reading of List.contains on strings. -/
theorem contains_iff_mem_string (ids : List String) (x : String) :
    ids.contains x = true ↔ x ∈ ids := by
  simp [List.contains, List.elem_iff]

/-- The identifier collection round trip of the spatial filter: with distinct
identifiers, filtering the list by membership of the identifier in the
identifier list of the filtered rows gives back exactly the filtered rows. -/
theorem filter_by_collected_ids (l : List Deployment) (p : Deployment → Bool)
    (hnodup : (l.map fun d => d.deployment_id).Nodup) :
    (l.filter fun d =>
        ((l.filter p).map fun d => d.deployment_id).contains d.deployment_id)
      = l.filter p := by
  apply List.filter_congr
  intro d hd
  by_cases hp : p d = true
  · rw [hp]
    rw [contains_iff_mem_string]
    exact List.mem_map_of_mem _ (List.mem_filter.mpr ⟨hd, hp⟩)
  · have hmemnot : d.deployment_id ∉ (l.filter p).map fun d => d.deployment_id := by
      intro hmem
      rcases List.mem_map.mp hmem with ⟨d2, hd2, heq⟩
      have hd2f := List.mem_filter.mp hd2
      have hdd : d2 = d := List.inj_on_of_nodup_map hnodup hd2f.1 hd heq
      rw [hdd] at hd2f
      exact hp hd2f.2
    simp only [Bool.not_eq_true] at hp
    rw [hp]
    cases hC : ((l.filter p).map fun d => d.deployment_id).contains d.deployment_id with
    | false => rfl
    | true => exact absurd ((contains_iff_mem_string _ _).mp hC) hmemnot

/-- Reduction of get_deployments_within_geometry at a validated boundary: the
empty deployment list raises, a non empty one is refiltered by the collected
identifiers. -/
theorem gdwg_eq (makeValid : Geom → Geom) (reproject : String → Geom → Geom)
    (deployments : List Deployment) (geometry : GeomInput) (bounds : GeoSeries)
    (hval : validate_geometry makeValid reproject geometry = .ok bounds) :
    get_deployments_within_geometry makeValid reproject deployments geometry
      = if deployments.isEmpty then .error "AttributeError: deployment_id"
        else .ok (deployments.filter fun d =>
          ((deployments.filter fun d => bounds.union_all.interior d.point).map
              fun d => d.deployment_id).contains d.deployment_id) := by
  unfold get_deployments_within_geometry
  rw [hval]
  rfl

/-- Claim C7 amended: for every non empty deployment list with distinct
identifiers (the data model invariant) and every validated boundary, the
spatial filter returns exactly the sublist of deployments whose point lies
strictly within the union of the validated bounds, preserving the relative
input order; a deployment whose point lies exactly on the boundary edge is
excluded, the interior and the boundary of a geometry being disjoint; on the
empty deployment list the call raises instead of returning the empty list,
the GeoDataFrame built from an empty list having no deployment_id column. -/
theorem c7_within_filter (makeValid : Geom → Geom) (reproject : String → Geom → Geom)
    (deployments : List Deployment) (geometry : GeomInput) (bounds : GeoSeries)
    (hval : validate_geometry makeValid reproject geometry = .ok bounds)
    (hne : deployments ≠ [])
    (hnodup : (deployments.map fun d => d.deployment_id).Nodup)
    (hdisj : ∀ p, bounds.union_all.onBoundary p = true →
      bounds.union_all.interior p = false) :
    get_deployments_within_geometry makeValid reproject deployments geometry
        = .ok (deployments.filter fun d => bounds.union_all.interior d.point)
    ∧ (deployments.filter fun d => bounds.union_all.interior d.point).Sublist deployments
    ∧ (∀ d ∈ deployments, bounds.union_all.onBoundary d.point = true →
        d ∉ deployments.filter fun d => bounds.union_all.interior d.point)
    ∧ get_deployments_within_geometry makeValid reproject [] geometry
        = .error "AttributeError: deployment_id" := by
  have hne2 : deployments.isEmpty = false := by
    cases deployments with
    | nil => exact absurd rfl hne
    | cons d rest => rfl
  refine ⟨?_, List.filter_sublist _, ?_, ?_⟩
  · rw [gdwg_eq makeValid reproject deployments geometry bounds hval,
      if_neg (by simp [hne2])]
    exact congrArg Except.ok (filter_by_collected_ids _ _ hnodup)
  · intro d _ hbnd hmem
    have hint := (List.mem_filter.mp hmem).2
    rw [hdisj d.point hbnd] at hint
    exact absurd hint (by simp)
  · rw [gdwg_eq makeValid reproject [] geometry bounds hval]
    rfl

/-- A concrete sample boundary for witnesses: the open box from 0 to 10 in
both coordinates, with the left edge recorded as boundary. -/
def sampleGeom : Geom :=
  { interior := fun p => decide (0 < p.1 ∧ p.1 < 10 ∧ 0 < p.2 ∧ p.2 < 10),
    onBoundary := fun p => decide (p.1 = 0 ∧ 0 ≤ p.2 ∧ p.2 ≤ 10),
    is_valid := true,
    is_simple := true }

/-- A processed deployment whose point lies strictly inside the sample
boundary. -/
def sampleDeploymentIn : Deployment :=
  { deployment_id := "in", name := "inside", date_deployed := 0, date_down := none,
    deploy_type := "flood", location := ⟨"Point", ⟨"link", ⟨"epsg4326"⟩⟩, (1, 2)⟩,
    sensor_status := "good", longitude := some 1, latitude := some 2 }

/-- A processed deployment whose point lies exactly on the boundary edge of
the sample boundary. -/
def sampleDeploymentEdge : Deployment :=
  { deployment_id := "edge", name := "on edge", date_deployed := 0, date_down := none,
    deploy_type := "flood", location := ⟨"Point", ⟨"link", ⟨"epsg4326"⟩⟩, (0, 5)⟩,
    sensor_status := "good", longitude := some 0, latitude := some 5 }

/-- A second processed deployment strictly inside the sample boundary. -/
def sampleDeploymentIn2 : Deployment :=
  { deployment_id := "in2", name := "inside two", date_deployed := 0, date_down := none,
    deploy_type := "flood", location := ⟨"Point", ⟨"link", ⟨"epsg4326"⟩⟩, (3, 3)⟩,
    sensor_status := "good", longitude := some 3, latitude := some 3 }

/-- Counterexample to claim C7: on the empty deployment list, where the claim
demands the empty sublist as the result, the call errors instead, because the
GeoDataFrame built from an empty list has no deployment_id column to read. -/
theorem c7_counterexample :
    get_deployments_within_geometry id (fun _ g => g) ([] : List Deployment)
        (.poly sampleGeom)
      = .error "AttributeError: deployment_id"
    ∧ (([] : List Deployment).filter fun d =>
        (GeoSeries.union_all ⟨"EPSG:4326", [sampleGeom]⟩).interior d.point) = [] :=
  ⟨rfl, rfl⟩

/-- Witness for C7: of a deployment strictly inside the sample box and one on
its left edge, only the inside one is returned. -/
theorem c7_witness :
    get_deployments_within_geometry id (fun _ g => g)
        [sampleDeploymentIn, sampleDeploymentEdge] (.poly sampleGeom)
      = .ok [sampleDeploymentIn] := by
  have hdisj : ∀ p, (GeoSeries.union_all ⟨"EPSG:4326", [sampleGeom]⟩).onBoundary p = true →
      (GeoSeries.union_all ⟨"EPSG:4326", [sampleGeom]⟩).interior p = false := by
    intro p hp
    have hp2 : p.1 = 0 ∧ 0 ≤ p.2 ∧ p.2 ≤ 10 := by
      have hb : sampleGeom.onBoundary p = true := by
        simpa [GeoSeries.union_all] using hp
      exact of_decide_eq_true hb
    have hgoal : sampleGeom.interior p = false := by
      apply decide_eq_false
      intro hcon
      rw [hp2.1] at hcon
      exact lt_irrefl 0 hcon.1
    simpa [GeoSeries.union_all] using hgoal
  have h := (c7_within_filter id (fun _ g => g)
      [sampleDeploymentIn, sampleDeploymentEdge] (.poly sampleGeom)
      ⟨"EPSG:4326", [sampleGeom]⟩ rfl (by simp) (by decide) hdisj).1
  rw [h]
  rfl

/-- Claim C8: a boundary supplied in a non canonical coordinate reference
system and the same boundary reprojected to the canonical EPSG:4326 system
(both valid and simple, so that repair leaves them unchanged) filter the
deployment list identically, and in particular yield the same identifier
set. -/
theorem c8_crs_roundtrip (makeValid : Geom → Geom) (reproject : String → Geom → Geom)
    (deployments : List Deployment) (crs : String) (G : Geom)
    (hcrs : crs ≠ "EPSG:4326")
    (hmv : makeValid G = G) (hv : G.is_valid = true) (hs : G.is_simple = true)
    (hmv2 : makeValid (reproject crs G) = reproject crs G)
    (hv2 : (reproject crs G).is_valid = true) (hs2 : (reproject crs G).is_simple = true) :
    get_deployments_within_geometry makeValid reproject deployments (.series ⟨crs, [G]⟩)
        = get_deployments_within_geometry makeValid reproject deployments
          (.series ⟨"EPSG:4326", [reproject crs G]⟩)
    ∧ Except.map (List.map fun d => d.deployment_id)
          (get_deployments_within_geometry makeValid reproject deployments
            (.series ⟨crs, [G]⟩))
        = Except.map (List.map fun d => d.deployment_id)
          (get_deployments_within_geometry makeValid reproject deployments
            (.series ⟨"EPSG:4326", [reproject crs G]⟩)) := by
  have hval1 : validate_geometry makeValid reproject (.series ⟨crs, [G]⟩)
      = .ok ⟨"EPSG:4326", [reproject crs G]⟩ := by
    simp [validate_geometry, validateSeries, hmv, hv, hs, hcrs]
  have hval2 : validate_geometry makeValid reproject
        (.series ⟨"EPSG:4326", [reproject crs G]⟩)
      = .ok ⟨"EPSG:4326", [reproject crs G]⟩ := by
    simp [validate_geometry, validateSeries, hmv2, hv2, hs2]
  have hmain : get_deployments_within_geometry makeValid reproject deployments
        (.series ⟨crs, [G]⟩)
      = get_deployments_within_geometry makeValid reproject deployments
        (.series ⟨"EPSG:4326", [reproject crs G]⟩) := by
    unfold get_deployments_within_geometry
    rw [hval1, hval2]
  exact ⟨hmain, congrArg _ hmain⟩

/-- Witness for C8: the sample boundary tagged with a UTM reference system and
its (identity) reprojection to EPSG:4326 filter the sample deployments
identically. -/
theorem c8_witness :
    get_deployments_within_geometry id (fun _ g => g)
        [sampleDeploymentIn, sampleDeploymentEdge]
        (.series ⟨"EPSG:32618", [sampleGeom]⟩)
      = get_deployments_within_geometry id (fun _ g => g)
        [sampleDeploymentIn, sampleDeploymentEdge]
        (.series ⟨"EPSG:4326", [sampleGeom]⟩) :=
  (c8_crs_roundtrip id (fun _ g => g) [sampleDeploymentIn, sampleDeploymentEdge]
    "EPSG:32618" sampleGeom (by decide) rfl rfl rfl rfl rfl rfl).1

/-- A shape containing none of the sample points. -/
def farAwayGeom : Geom :=
  { interior := fun p => decide (p.1 < -100), onBoundary := fun _ => false,
    is_valid := true, is_simple := true }

/-- A shape containing every point. -/
def wholeGeom : Geom :=
  { interior := fun _ => true, onBoundary := fun _ => false,
    is_valid := true, is_simple := true }

/-- Counterexample to claim C9: for a two member GeoSeries whose second shape
strictly contains the deployment point while the first does not, the
deployment is excluded from the filtered result: the validator keeps only the
first member of the collection, so the membership test does not run against
the union of all member shapes. -/
theorem c9_counterexample :
    wholeGeom.interior (Deployment.point sampleDeploymentIn) = true
    ∧ get_deployments_within_geometry id (fun _ g => g) [sampleDeploymentIn]
        (.series ⟨"EPSG:4326", [farAwayGeom, wholeGeom]⟩) = .ok [] :=
  ⟨rfl, rfl⟩

/-- Claim C9 amended: only the first member of a GeoSeries collection is used:
validation and filtering are invariant under dropping every later member, and
with a canonical reference system, a repaired first shape passing the
validity checks, a non empty deployment list (on the empty list the call
raises) and distinct identifiers, membership is tested against the repaired
first shape alone. -/
theorem c9_first_shape_only (makeValid : Geom → Geom) (reproject : String → Geom → Geom)
    (deployments : List Deployment) (crs : String) (g0 : Geom) (rest : List Geom) :
    validate_geometry makeValid reproject (.series ⟨crs, g0 :: rest⟩)
        = validate_geometry makeValid reproject (.series ⟨crs, [g0]⟩)
    ∧ get_deployments_within_geometry makeValid reproject deployments
          (.series ⟨crs, g0 :: rest⟩)
        = get_deployments_within_geometry makeValid reproject deployments
          (.series ⟨crs, [g0]⟩)
    ∧ (crs = "EPSG:4326" → (makeValid g0).is_valid = true →
        (makeValid g0).is_simple = true →
        deployments ≠ [] →
        (deployments.map fun d => d.deployment_id).Nodup →
        get_deployments_within_geometry makeValid reproject deployments
            (.series ⟨crs, g0 :: rest⟩)
          = .ok (deployments.filter fun d => (makeValid g0).interior d.point)) := by
  refine ⟨rfl, rfl, ?_⟩
  intro hcrs hv hs hne hnodup
  have hne2 : deployments.isEmpty = false := by
    cases deployments with
    | nil => exact absurd rfl hne
    | cons d rest2 => rfl
  have hval : validate_geometry makeValid reproject (.series ⟨crs, g0 :: rest⟩)
      = .ok ⟨crs, [makeValid g0]⟩ := by
    simp [validate_geometry, validateSeries, hv, hs, hcrs]
  have hpred : (deployments.filter fun d =>
        (GeoSeries.union_all ⟨crs, [makeValid g0]⟩).interior d.point)
      = deployments.filter fun d => (makeValid g0).interior d.point := by
    apply List.filter_congr
    intro d _
    simp [GeoSeries.union_all]
  rw [gdwg_eq makeValid reproject deployments (.series ⟨crs, g0 :: rest⟩)
      ⟨crs, [makeValid g0]⟩ hval, if_neg (by simp [hne2]),
    filter_by_collected_ids _ _ hnodup, hpred]

/-- Witness for the amended C9: appending the whole plane shape after the
sample box changes nothing, and the filter keeps exactly the deployment
inside the first shape. -/
theorem c9_witness :
    get_deployments_within_geometry id (fun _ g => g)
        [sampleDeploymentIn, sampleDeploymentEdge]
        (.series ⟨"EPSG:4326", [sampleGeom, wholeGeom]⟩)
      = .ok [sampleDeploymentIn] := by
  have h := (c9_first_shape_only id (fun _ g => g)
      [sampleDeploymentIn, sampleDeploymentEdge] "EPSG:4326" sampleGeom
      [wholeGeom]).2.2 rfl rfl rfl (by simp) (by decide)
  rw [h]
  rfl

/-- Claim C5 amended: the join follows right join semantics: when at least
one deployment matched spatially and at least one reading was fetched, the
output has exactly one row per fetched reading joined to its deployment
geometry, so the output carries the identifiers of the readings and a
spatially matched deployment whose identifier occurs in no reading is dropped
from the output; when no deployment matched spatially, or the fetched reading
list is empty, the merge raises KeyError because the empty frame lacks the
merge columns. -/
theorem c5_right_join {γ : Type} (makeValid : Geom → Geom)
    (reproject : String → Geom → Geom) (validateRecord : γ → Option DepthReading)
    (upstream : String → DepthOutcome γ) (deployments : List Deployment)
    (start_time end_time : Time) (geometry : GeomInput)
    (bounds : GeoSeries) (deps : List Deployment) (readings : List DepthReading)
    (hval : validate_geometry makeValid reproject geometry = .ok bounds)
    (hdeps : get_deployments_within_geometry makeValid reproject deployments
      (.series bounds) = .ok deps)
    (hdepth : (get_depth_data validateRecord upstream start_time end_time
        (deps.map fun d => d.deployment_id)).1 = .ok readings) :
    get_depth_data_within_geometry makeValid reproject validateRecord upstream
        deployments start_time end_time geometry
        = (if deps.isEmpty then
            .error "KeyError: deployment_id and geometry not in index"
          else if readings.isEmpty then .error "KeyError: deployment_id"
          else .ok (rightMergeOnDeploymentId deps readings))
    ∧ (rightMergeOnDeploymentId deps readings).map (fun row => row.deployment_id)
        = readings.map (fun r => r.deployment_id)
    ∧ ∀ d ∈ deps, d.deployment_id ∉ readings.map (fun r => r.deployment_id) →
        d.deployment_id ∉ (rightMergeOnDeploymentId deps readings).map
          (fun row => row.deployment_id) := by
  have hmap : (rightMergeOnDeploymentId deps readings).map (fun row => row.deployment_id)
      = readings.map fun r => r.deployment_id := by
    simp only [rightMergeOnDeploymentId, List.map_map]
    rfl
  refine ⟨?_, hmap, ?_⟩
  · have h1 : get_depth_data_within_geometry makeValid reproject validateRecord upstream
        deployments start_time end_time geometry
        = (do
            let deps2 ← get_deployments_within_geometry makeValid reproject deployments
              (.series bounds)
            let readings2 ← (get_depth_data validateRecord upstream start_time end_time
              (deps2.map fun d => d.deployment_id)).1
            if deps2.isEmpty then
              Except.error "KeyError: deployment_id and geometry not in index"
            else if readings2.isEmpty then Except.error "KeyError: deployment_id"
            else pure (rightMergeOnDeploymentId deps2 readings2)) := by
      unfold get_depth_data_within_geometry
      rw [hval]
      rfl
    rw [h1, hdeps]
    show (do
        let readings2 ← (get_depth_data validateRecord upstream start_time end_time
          (deps.map fun d => d.deployment_id)).1
        if deps.isEmpty then
          Except.error "KeyError: deployment_id and geometry not in index"
        else if readings2.isEmpty then Except.error "KeyError: deployment_id"
        else pure (rightMergeOnDeploymentId deps readings2))
      = (if deps.isEmpty then
          Except.error "KeyError: deployment_id and geometry not in index"
        else if readings.isEmpty then Except.error "KeyError: deployment_id"
        else Except.ok (rightMergeOnDeploymentId deps readings))
    rw [hdepth]
    rfl
  · intro d _ hnot
    rw [hmap]
    exact hnot

/-- A concrete upstream for the spatial pipeline: the identifier of the first
inside deployment yields one valid reading, every other identifier yields an
empty payload. -/
def c5Upstream : String → DepthOutcome (Option DepthReading)
  | "in" => .payload [some ⟨"in", 5, 100⟩]
  | _ => .payload []

/-- Counterexample to claim C5: both sample deployments match the region
spatially, but the one contributing zero readings is absent from the output
of the spatial depth query: the right join drops deployments without
readings instead of representing them with an empty contribution. -/
theorem c5_counterexample :
    get_deployments_within_geometry id (fun _ g => g)
        [sampleDeploymentIn, sampleDeploymentIn2]
        (.series ⟨"EPSG:4326", [sampleGeom]⟩)
      = .ok [sampleDeploymentIn, sampleDeploymentIn2]
    ∧ get_depth_data_within_geometry id (fun _ g => g)
        (fun r : Option DepthReading => r) c5Upstream
        [sampleDeploymentIn, sampleDeploymentIn2] 0 10 (.poly sampleGeom)
      = .ok [⟨"in", 5, 100, some (1, 2)⟩]
    ∧ sampleDeploymentIn2.deployment_id
        ∉ ([⟨"in", 5, 100, some (1, 2)⟩] : List ReadingRow).map
          fun row => row.deployment_id :=
  ⟨rfl, rfl, by decide⟩

/-- Witness for the amended C5: on the concrete pipeline the output is the
right merge of the single fetched reading, and the spatially matched second
deployment, contributing no reading, is dropped from the output. -/
theorem c5_witness :
    get_depth_data_within_geometry id (fun _ g => g)
        (fun r : Option DepthReading => r) c5Upstream
        [sampleDeploymentIn, sampleDeploymentIn2] 0 10 (.poly sampleGeom)
      = .ok (rightMergeOnDeploymentId [sampleDeploymentIn, sampleDeploymentIn2]
          [⟨"in", 5, 100⟩])
    ∧ sampleDeploymentIn2.deployment_id
        ∉ (rightMergeOnDeploymentId [sampleDeploymentIn, sampleDeploymentIn2]
            [⟨"in", 5, 100⟩]).map fun row => row.deployment_id := by
  have h := c5_right_join id (fun _ g => g) (fun r : Option DepthReading => r)
    c5Upstream [sampleDeploymentIn, sampleDeploymentIn2] 0 10 (.poly sampleGeom)
    ⟨"EPSG:4326", [sampleGeom]⟩ [sampleDeploymentIn, sampleDeploymentIn2]
    [⟨"in", 5, 100⟩] rfl rfl rfl
  refine ⟨?_, h.2.2 sampleDeploymentIn2 (by simp) (by decide)⟩
  rw [h.1]
  rfl

end FloodNet
